import Mathlib

set_option maxHeartbeats 1000000

/-
Shallow embedding of the crawl_camera repository's extraction-and-normalization
pipeline (src/main.py, src/base_crawler.py, src/crawlers/base_crawler.py and the
vendor extractors).  Pure data transformations are translated to Lean functions;
the Selenium / requests page interactions are abstracted as oracles describing
what each page interaction yields, and the control flow around those
interactions is translated faithfully from the Python source.
-/

/-! ## Data model -/

/- One `{"paramName": ..., "param": ...}` entry as built by the vendor
extractors (e.g. src/everfocus_crawler.py lines 92-96). -/
structure Param where
  paramName : String
  param : String
deriving Repr, DecidableEq

/- The product dict produced by the vendor extractors:
`{'product_id': ..., 'product_name': ..., 'params': [...]}`. -/
structure Product where
  product_id : String
  product_name : String
  params : List Param
deriving Repr, DecidableEq

/- The product dict consumed by `BaseCrawler.prepare_data` in
src/base_crawler.py lines 176-195: keys `id`, `name`, `url` and a
`specifications` mapping iterated with `.items()` (insertion order). -/
structure SrcProduct where
  id : String
  name : String
  url : String
  specifications : List (String × String)
deriving Repr, DecidableEq

/- One row of the flattened specification table `specs_df`
(src/base_crawler.py lines 188-195). -/
structure SpecRow where
  product_id : String
  product_name : String
  param_name : String
  param_value : String
deriving Repr, DecidableEq

/- One object of the record-oriented JSON export
(src/base_crawler.py lines 306-319). -/
structure JsonObj where
  product_id : String
  product_name : String
  params : List Param
deriving Repr, DecidableEq

/-! ## Generic helpers -/

/- `pandas.Series.unique`: the distinct values in first-appearance order
(used by `create_excel_file` via `specs_df['product_id'].unique()`). -/
def uniqueFirst {α : Type} [DecidableEq α] : List α → List α
  | [] => []
  | x :: xs => x :: uniqueFirst (xs.filter (fun y => y ≠ x))
termination_by l => l.length
decreasing_by
  simp only [List.length_cons]
  exact Nat.lt_succ_of_le (List.length_filter_le _ _)

theorem mem_uniqueFirst {α : Type} [DecidableEq α] (a : α) :
    ∀ l : List α, a ∈ uniqueFirst l ↔ a ∈ l
  | [] => by simp [uniqueFirst]
  | x :: xs => by
    rw [uniqueFirst]
    by_cases hax : a = x
    · subst hax; simp
    · simp only [List.mem_cons, hax, false_or]
      rw [mem_uniqueFirst a (xs.filter (fun y => y ≠ x))]
      simp [List.mem_filter, hax]
termination_by l => l.length
decreasing_by
  simp only [List.length_cons]
  exact Nat.lt_succ_of_le (List.length_filter_le _ _)

theorem uniqueFirst_nodup {α : Type} [DecidableEq α] :
    ∀ l : List α, (uniqueFirst l).Nodup
  | [] => by simp [uniqueFirst]
  | x :: xs => by
    rw [uniqueFirst]
    refine List.nodup_cons.mpr ⟨?_, uniqueFirst_nodup (xs.filter (fun y => y ≠ x))⟩
    intro hx
    rw [mem_uniqueFirst] at hx
    simp [List.mem_filter] at hx
termination_by l => l.length
decreasing_by
  simp only [List.length_cons]
  exact Nat.lt_succ_of_le (List.length_filter_le _ _)

/- Python `str.strip()`, modelled on the character list (drop leading and
trailing whitespace) so that it evaluates by kernel reduction. -/
def pyStrip (s : String) : String :=
  ⟨((s.data.dropWhile Char.isWhitespace).reverse.dropWhile
      Char.isWhitespace).reverse⟩

/- Python `int(text.strip())` on the non-negative decimal literals that page
counts are, modelled on the character list; `none` models the ValueError
branch. -/
def pyInt? (s : String) : Option Nat :=
  let t := (pyStrip s).data
  if t ≠ [] ∧ t.all Char.isDigit then
    some (t.foldl (fun n c => 10 * n + (c.toNat - 48)) 0)
  else none

/- Lookup in a Python dict built by `dict(zip(keys, values))`: on duplicate
keys the last assignment wins, hence the search over the reversed list. -/
def dictGet (pairs : List (String × String)) (key : String) : Option String :=
  (pairs.reverse.find? (fun p => p.1 == key)).map (·.2)

/-! ## Normalizer & Exporter (src/base_crawler.py) -/

/- The flattening loop of `prepare_data` (src/base_crawler.py lines 187-195):
one `specs_data` row per parameter occurrence, outer loop over the products in
collection order, inner loop over `specifications.items()` in insertion
order. -/
def prepare_data_specs (all_products : List SrcProduct) : List SpecRow :=
  all_products.flatMap fun product =>
    product.specifications.map fun pv =>
      { product_id := product.id, product_name := product.name,
        param_name := pv.1, param_value := pv.2 }

/- The `basic_data` rows of `prepare_data` (lines 175-181), as (id, name)
pairs; `process_and_save_data` zips them into `product_name_map`
(line 338). -/
def prepare_data_basic (all_products : List SrcProduct) : List (String × String) :=
  all_products.map fun product => (product.id, product.name)

/- One merged group of the formatted Excel export: `product_id` and
`product_name` are rendered once for the whole group (the merged A/B cells,
src/base_crawler.py lines 255-265), followed by the group's parameter rows. -/
structure ExcelGroup where
  product_id : String
  product_name : String
  paramRows : List (String × String)
deriving Repr, DecidableEq

/- `create_excel_file` (src/base_crawler.py lines 206-275), modelled as the
sheet content it produces: it iterates `specs_df['product_id'].unique()`
(first-appearance order), selects all rows of that id in table order, looks the
product name up in `product_name_map` (default "未知产品") and appends one
worksheet row per parameter row, merging the id/name cells across the
group. -/
def create_excel_file (specs_df : List SpecRow)
    (product_name_map : List (String × String)) : List ExcelGroup :=
  (uniqueFirst (specs_df.map (·.product_id))).map fun pid =>
    { product_id := pid
      product_name := (dictGet product_name_map pid).getD "未知产品"
      paramRows := (specs_df.filter (fun r => r.product_id = pid)).map
        fun r => (r.param_name, r.param_value) }

/- The per-row content appended to the worksheet (`ws.append([product_id,
product_name, row['param_name'], row['param_value']])`, line 245): every data
row of a group repeats the group's id and mapped name. -/
def excelRenderedRows (groups : List ExcelGroup) : List SpecRow :=
  groups.flatMap fun g => g.paramRows.map fun pv =>
    { product_id := g.product_id, product_name := g.product_name,
      param_name := pv.1, param_value := pv.2 }

/- `ws.merge_cells` is applied to a group's id/name columns iff the group has
more than one data row (the `if start_row != row_index - 1` guard,
line 256). -/
def excelGroupMerged (g : ExcelGroup) : Bool :=
  1 < g.paramRows.length

/- Keys of `specs_df.pivot_table(index=['product_id','product_name'], ...)`
(src/base_crawler.py lines 286-291): the distinct (product_id, product_name)
pairs, sorted ascending as pandas sorts group keys. -/
def pivotIndexKeys (specs_df : List SpecRow) : List (String × String) :=
  (uniqueFirst (specs_df.map fun r => (r.product_id, r.product_name))).insertionSort
    (fun a b => a.1 < b.1 ∨ (a.1 = b.1 ∧ a.2 ≤ b.2))

/- Column labels of the pivot: the distinct `param_name` values, sorted. -/
def pivotColumns (specs_df : List SpecRow) : List String :=
  (uniqueFirst (specs_df.map (·.param_name))).insertionSort (· ≤ ·)

/- One cell of the pivot table: `aggfunc='first'` keeps the first value (in
table order) among the rows of this (product_id, product_name) group carrying
this `param_name`; a group with no such row gets a missing (NaN → empty)
cell, modelled as `none`. -/
def pivotCell (specs_df : List SpecRow) (key : String × String)
    (col : String) : Option String :=
  ((specs_df.filter fun r =>
      r.product_id = key.1 ∧ r.product_name = key.2 ∧ r.param_name = col).head?).map
    (·.param_value)

/- `create_pivot_csv` (src/base_crawler.py lines 277-295): one output row per
index key, one column per distinct param_name. -/
def create_pivot_csv (specs_df : List SpecRow) :
    List ((String × String) × List (String × Option String)) :=
  (pivotIndexKeys specs_df).map fun k =>
    (k, (pivotColumns specs_df).map fun c => (c, pivotCell specs_df k c))

/- `create_json_file` (src/base_crawler.py lines 297-325):
`specs_df.groupby('product_id')` yields the groups sorted ascending by key,
each group keeping its rows in table order; the object's name is the group's
first `product_name` (the all-null fallback "" can only fire on an empty
group, which groupby never produces), and its params are all rows of the
group in order. -/
def create_json_file (specs_df : List SpecRow) : List JsonObj :=
  ((uniqueFirst (specs_df.map (·.product_id))).insertionSort (· ≤ ·)).map fun pid =>
    let group := specs_df.filter (fun r => r.product_id = pid)
    { product_id := pid
      product_name := ((group.head?).map (·.product_name)).getD ""
      params := group.map fun r => { paramName := r.param_name, param := r.param_value } }

/-! ## Concurrency Coordinator (src/main.py) -/

/- What `crawler.run()` does when a task executes it: either it returns, or it
raises an exception carrying a message. -/
inductive RunOutcome where
  | ok
  | error (msg : String)
deriving Repr, DecidableEq

/- One entry of the list returned by `get_crawler_classes`: the class name
together with the behaviour of instantiating and running it. -/
structure CrawlerTask where
  className : String
  runOutcome : RunOutcome
deriving Repr, DecidableEq

/- `execute_crawler` (src/main.py lines 64-85): the whole body is wrapped in
`try/except Exception`, so a raising `run()` is caught at the task boundary
and turned into an error-message result string; it never re-raises. -/
def execute_crawler (t : CrawlerTask) : String :=
  match t.runOutcome with
  | .ok => "爬虫 " ++ t.className ++ " 运行成功"
  | .error e => "运行爬虫 " ++ t.className ++ " 时出错: " ++ e

/- The class_names filter of `run_crawlers_parallel`
(src/main.py lines 106-117). -/
def selectedClasses (crawler_classes : List CrawlerTask)
    (class_names : Option (List String)) : List CrawlerTask :=
  match class_names with
  | none => crawler_classes
  | some ns => crawler_classes.filter (fun c => ns.contains c.className)

/- `run_crawlers_parallel` (src/main.py lines 88-139): an empty class list or
an empty filtered list is an error return (`none`); otherwise one task is
submitted per selected class and the `as_completed` loop collects exactly one
result per future.  The completion interleaving is unspecified, so the result
list is modelled in submission order, keyed by class name. -/
def run_crawlers_parallel (crawler_classes : List CrawlerTask)
    (class_names : Option (List String)) :
    Option (List (String × String)) :=
  if crawler_classes = [] then none
  else
    let selected := selectedClasses crawler_classes class_names
    if selected = [] then none
    else some (selected.map fun c => (c.className, execute_crawler c))

/-! ## Extraction Orchestrator: BaseCrawler.run (src/base_crawler.py) -/

/- Oracle for one run of the src/base_crawler.py orchestrator: what
`process_category_page` returns per start URL and what
`extract_product_details` returns per product link (`none` = the Python
`None`, i.e. the absent outcome). -/
structure CrawlOracle where
  process_category_page : String → List String
  extract_product_details : String → Option Product

/- The observable outcome of `BaseCrawler.run` (src/base_crawler.py lines
119-164). -/
structure RunResult where
  all_products : List Product
  skipped_urls : List String
  data_saved : Bool
  skipped_file_written : Bool
deriving Repr, DecidableEq

/- `BaseCrawler.run` (src/base_crawler.py lines 119-164) on the exception-free
path: all links from all start URLs are accumulated, each link is extracted
once, a truthy result is appended to `all_products` and a falsy one sends the
link to `skipped_urls`; the results are persisted only under
`if self.all_products:`, and the skipped-URLs side file is written only inside
that branch, under the further `if skipped_urls:`. -/
def BaseCrawler.run (start_urls : List String) (o : CrawlOracle) : RunResult :=
  let all_product_links := start_urls.flatMap o.process_category_page
  let all_products := all_product_links.filterMap o.extract_product_details
  let skipped_urls := all_product_links.filter
    fun l => (o.extract_product_details l).isNone
  { all_products := all_products
    skipped_urls := skipped_urls
    data_saved := !all_products.isEmpty
    skipped_file_written := !all_products.isEmpty && !skipped_urls.isEmpty }

/-! ## Resource release on the two run() variants -/

/- Oracle whose page operations may raise (a Selenium/requests exception
escaping the called method), for tracing the exception paths of the two
`run` implementations. -/
structure FallibleOracle where
  process_category_page : String → Except String (List String)
  extract_product_details : String → Except String (Option Product)
  save_data : Except String Unit

/- The try-block body shared by both `run` variants: discover links per start
URL, then extract per link, then persist. -/
def runBody (start_urls : List String) (o : FallibleOracle) :
    Except String (List Product) := do
  let mut links : List String := []
  for u in start_urls do
    let ls ← o.process_category_page u
    links := links ++ ls
  let mut products : List Product := []
  for l in links do
    let r ← o.extract_product_details l
    match r with
    | some p => products := products ++ [p]
    | none => pure ()
  let _ ← o.save_data
  pure products

/- Exit state of a `run` call: whether `driver.quit()` was reached, and the
exception (if any) propagating out of `run` to the caller. -/
structure RunExit where
  driver_quit : Bool
  propagated : Option String
deriving Repr, DecidableEq

/- src/base_crawler.py `run` (lines 119-164): the body sits in
`try/except Exception/finally`, the except arm only logs, and the `finally`
arm calls `self.close()` which quits the driver — so the driver is quit and
nothing propagates on either path. -/
def BaseCrawler.run_exit (start_urls : List String) (o : FallibleOracle) : RunExit :=
  match runBody start_urls o with
  | .ok _ => { driver_quit := true, propagated := none }
  | .error _ => { driver_quit := true, propagated := none }

/- src/crawlers/base_crawler.py `run` (lines 129-157): there is no
try/except/finally; `self.driver.quit()` is executed only after
`process_and_save_data` on the normal path, so an exception raised during
link discovery, extraction or persistence propagates out of `run` before the
quit is reached. -/
def CrawlersBaseCrawler.run_exit (start_urls : List String)
    (o : FallibleOracle) : RunExit :=
  match runBody start_urls o with
  | .ok _ => { driver_quit := true, propagated := none }
  | .error e => { driver_quit := false, propagated := some e }

/-! ## Vendor extract_product_details implementations -/

/- What a rendered EverFocus product page yields to the extractor
(src/everfocus_crawler.py lines 45-115): whether `driver.get` raises,
the text of the id element if it appears within the bounded wait (`none` =
TimeoutException / NoSuchElementException), likewise the name element, and
the td texts of each `div > table > tbody > tr` row. -/
structure EverfocusPage where
  load_fails : Bool
  product_id_text : Option String
  name_text : Option String
  spec_rows : List (List String)
deriving Repr, DecidableEq

/- The parameter loop of EverFocus (src/everfocus_crawler.py lines 78-96): a
row is kept only when it has ≥ 2 cells and both stripped texts are
non-empty. -/
def everfocusParams (spec_rows : List (List String)) : List Param :=
  spec_rows.filterMap fun cells =>
    match cells with
    | c0 :: c1 :: _ =>
      let param_name := pyStrip c0
      let param_value := pyStrip c1
      if param_name = "" ∨ param_value = "" then none
      else some { paramName := param_name, param := param_value }
    | _ => none

/- `EverFocusCrawler.extract_product_details` (src/everfocus_crawler.py lines
45-115): a page-load failure hits the outer `except` and returns `None`, but a
missing or empty product id falls back to the sentinel "未知ID" (lines 55-65)
and the record is still returned; a missing/empty name falls back to
"未知名称"; a parameter row is kept only when it has ≥ 2 cells and both
stripped texts are non-empty. -/
def EverFocusCrawler.extract_product_details (pg : EverfocusPage) : Option Product :=
  if pg.load_fails then none
  else
    let product_id :=
      match pg.product_id_text with
      | some t => if pyStrip t = "" then "未知ID" else pyStrip t
      | none => "未知ID"
    let name :=
      match pg.name_text with
      | some t => if pyStrip t = "" then "未知名称" else pyStrip t
      | none => "未知名称"
    some { product_id := product_id, product_name := name,
           params := everfocusParams pg.spec_rows }

/- One `frontend-collapses-general` group on a VIVOTEK spec page
(src/crawlers/vivotek_crawler.py lines 142-159): the texts of its direct div
children (the first is the parameter name cell) and the texts of all p
elements under the second div's sub-divs, in document order. -/
structure VivoGroup where
  div_texts : List String
  p_texts : List String
deriving Repr, DecidableEq

/- What a rendered VIVOTEK product page yields
(src/crawlers/vivotek_crawler.py lines 91-182). -/
structure VivotekPage where
  load_fails : Bool
  id_text : Option String
  name_text : Option String
  groups : List VivoGroup
deriving Repr, DecidableEq

/- The parameter loop of VIVOTEK (src/crawlers/vivotek_crawler.py lines
142-159): a group is kept only when it has ≥ 2 divs and both the stripped
name and the "; "-joined non-empty stripped p texts are non-empty. -/
def vivotekParams (groups : List VivoGroup) : List Param :=
  groups.filterMap fun g =>
    match g.div_texts with
    | d0 :: _ :: _ =>
      let param_name := pyStrip d0
      let param_p := (g.p_texts.map pyStrip).filter (fun s => s ≠ "")
      let param_value := String.intercalate "; " param_p
      if param_name = "" ∨ param_value = "" then none
      else some { paramName := param_name, param := param_value }
    | _ => none

/- `VivotekCrawler.extract_product_details` (src/crawlers/vivotek_crawler.py
lines 91-182): returns `None` when the page load raises, when the id element
times out or strips to empty, when the name element is missing or strips to
empty, or when no parameter is extracted; a group is kept only when it has
≥ 2 divs and both the stripped name and the "; "-joined non-empty p texts are
non-empty. -/
def VivotekCrawler.extract_product_details (pg : VivotekPage) : Option Product :=
  if pg.load_fails then none
  else
    match pg.id_text with
    | none => none
    | some t =>
      let prod_id := pyStrip t
      if prod_id = "" then none
      else
        match pg.name_text with
        | none => none
        | some nt =>
          let prod_name := pyStrip nt
          if prod_name = "" then none
          else
            let params := vivotekParams pg.groups
            if params = [] then none
            else some { product_id := prod_id, product_name := prod_name,
                        params := params }

/- What a rendered Hisharp product page yields
(src/crawlers/hisharp_crawler.py lines 83-167). -/
structure HisharpPage where
  load_fails : Bool
  id_text : Option String
  name_text : Option String
  table_rows : List (List String)
deriving Repr, DecidableEq

/- The parameter loop of Hisharp (src/crawlers/hisharp_crawler.py lines
138-151): a row with ≥ 2 cells is kept whenever the stripped `param_name` is
non-empty — the stripped `param_value` is NOT checked. -/
def hisharpParams (table_rows : List (List String)) : List Param :=
  table_rows.filterMap fun cells =>
    match cells with
    | c0 :: c1 :: _ =>
      let param_name := pyStrip c0
      let param_value := pyStrip c1
      if param_name = "" then none
      else some { paramName := param_name, param := param_value }
    | _ => none

/- `HisharpCrawler.extract_product_details` (src/crawlers/hisharp_crawler.py
lines 83-167): `None` when the page load raises or the id element times out or
strips to empty; the name falls back to "未知名称"; a table row with ≥ 2 cells
is kept whenever the stripped `param_name` is non-empty — the stripped
`param_value` is NOT checked (lines 144-151), so a kept pair may carry an
empty value. -/
def HisharpCrawler.extract_product_details (pg : HisharpPage) : Option Product :=
  if pg.load_fails then none
  else
    match pg.id_text with
    | none => none
    | some t =>
      let product_id := pyStrip t
      if product_id = "" then none
      else
        let product_name :=
          match pg.name_text with
          | some nt => if pyStrip nt = "" then "未知名称" else pyStrip nt
          | none => "未知名称"
        some { product_id := product_id, product_name := product_name,
               params := hisharpParams pg.table_rows }

/- One `.parameter-item` on a Dahua spec page (src/dahua_crawler.py lines
144-163): the stripped-at-source texts of its label and value elements;
`none` models the inner `find_element` raising, which hits the inner
`except` and `continue`s. -/
structure DahuaItem where
  label_text : Option String
  value_text : Option String
deriving Repr, DecidableEq

/- What a rendered Dahua product page yields
(src/dahua_crawler.py lines 90-186). -/
structure DahuaPage where
  load_fails : Bool
  id_text : Option String
  name_text : Option String
  sections : List (List DahuaItem)
deriving Repr, DecidableEq

/- The parameter loop of Dahua (src/dahua_crawler.py lines 139-163): within
each section the first `.parameter-item` is skipped (`parameter_items[1:]`)
and an item is kept only when both stripped texts are non-empty. -/
def dahuaParams (sections : List (List DahuaItem)) : List Param :=
  sections.flatMap fun items =>
    (items.drop 1).filterMap fun item =>
      match item.label_text, item.value_text with
      | some lt, some vt =>
        let param_name := pyStrip lt
        let param_value := pyStrip vt
        if param_name = "" ∨ param_value = "" then none
        else some { paramName := param_name, param := param_value }
      | _, _ => none

/- `DahuaCrawler.extract_product_details` (src/dahua_crawler.py lines 90-186):
`None` when the page load raises, when the id wait or the name lookup fails,
when either strips to empty, or when no parameter is extracted; within each
`.parameter-info` section the first `.parameter-item` is skipped and an item
is kept only when both stripped texts are non-empty (line 156). -/
def DahuaCrawler.extract_product_details (pg : DahuaPage) : Option Product :=
  if pg.load_fails then none
  else
    match pg.id_text, pg.name_text with
    | some it, some nt =>
      let product_id := pyStrip it
      let name := pyStrip nt
      if product_id = "" ∨ name = "" then none
      else
        let params := dahuaParams pg.sections
        if params = [] then none
        else some { product_id := product_id, product_name := name,
                    params := params }
    | _, _ => none

/-! ## Dahua category pagination (src/dahua_crawler.py) -/

/- The static-markup world Dahua's category processing runs against: whether
`requests.get url` succeeds, the product links present on the page, whether a
`div.news-page` pagination block is present, and the texts of the pagination's
`a` tags. -/
structure DahuaSite where
  fetch_ok : String → Bool
  links_on : String → List String
  has_pagination : String → Bool
  page_anchor_texts : String → List String

/- `DahuaCrawler.get_links_from_page` (src/dahua_crawler.py lines 55-88):
one `get_selector` fetch; on failure an empty list. -/
def DahuaCrawler.get_links_from_page (site : DahuaSite) (url : String) : List String :=
  if site.fetch_ok url then site.links_on url else []

/- The known URL pattern for subsequent category pages:
`f"{url}/{page}.html"` (src/dahua_crawler.py line 234). -/
def dahua_page_url (url : String) (page : Nat) : String :=
  url ++ "/" ++ toString page ++ ".html"

/- `DahuaCrawler.process_category_page` (src/dahua_crawler.py lines 188-245),
returning the collected product links together with the chronological list of
page-fetch attempts (one entry per `get_selector` call, i.e. per
`requests.get`).  The first page is fetched once by `get_selector(url)` to
read the pagination markup and a second time inside
`get_links_from_page(url)`; the total page count is parsed once, from the
second-to-last pagination anchor of that first page (`int` modelled on
non-negative decimal literals via `String.toNat?`, any parse failure taking
the `except` arm that returns the links collected so far); pages
2..total_pages are then fetched by direct URL construction. -/
def DahuaCrawler.process_category_page (site : DahuaSite) (url : String) :
    List String × List String :=
  if ¬ site.fetch_ok url then ([], [url])
  else
    let first_links := DahuaCrawler.get_links_from_page site url
    let trace1 := [url, url]
    if ¬ site.has_pagination url then (first_links, trace1)
    else
      let page_links := site.page_anchor_texts url
      if page_links.length < 2 then (first_links, trace1)
      else
        match pyInt? (page_links.getD (page_links.length - 2) "") with
        | none => (first_links, trace1)
        | some total_pages =>
          let pages := List.range' 2 (total_pages + 1 - 2)
          (first_links ++
             pages.flatMap (fun p =>
               DahuaCrawler.get_links_from_page site (dahua_page_url url p)),
           trace1 ++ pages.map (dahua_page_url url))

/-! ## Helper lemmas -/

theorem length_filterMap_add_length_filter_isNone {α β : Type} (f : α → Option β) :
    ∀ l : List α,
      (l.filterMap f).length + (l.filter fun x => (f x).isNone).length = l.length
  | [] => rfl
  | x :: xs => by
    have ih := length_filterMap_add_length_filter_isNone f xs
    cases hfx : f x with
    | none =>
      simp [List.filterMap_cons, List.filter_cons, hfx]
      omega
    | some b =>
      simp [List.filterMap_cons, List.filter_cons, hfx]
      omega

theorem filter_head?_first {α : Type} (p : α → Bool) :
    ∀ l : List α, ∀ a : α, (l.filter p).head? = some a →
      ∃ i : Fin l.length, l.get i = a ∧ p a = true ∧
        ∀ j : Fin l.length, j.val < i.val → p (l.get j) = false
  | [], a, h => by simp at h
  | x :: xs, a, h => by
    by_cases hpx : p x = true
    · rw [List.filter_cons_of_pos hpx] at h
      simp only [List.head?_cons, Option.some.injEq] at h
      subst h
      exact ⟨⟨0, Nat.succ_pos _⟩, rfl, hpx, fun j hj => absurd hj (Nat.not_lt_zero _)⟩
    · rw [List.filter_cons_of_neg hpx] at h
      obtain ⟨i, hget, hpa, hfirst⟩ := filter_head?_first p xs a h
      refine ⟨⟨i.val + 1, Nat.succ_lt_succ i.isLt⟩, hget, hpa, ?_⟩
      intro j hj
      match j with
      | ⟨0, _⟩ => exact Bool.eq_false_iff.mpr hpx
      | ⟨k + 1, hk⟩ =>
        exact hfirst ⟨k, Nat.lt_of_succ_lt_succ hk⟩ (Nat.lt_of_succ_lt_succ hj)

theorem mem_prepare_data_specs {products : List SrcProduct} {r : SpecRow}
    (h : r ∈ prepare_data_specs products) :
    ∃ p ∈ products, r.product_id = p.id ∧ r.product_name = p.name ∧
      (r.param_name, r.param_value) ∈ p.specifications := by
  unfold prepare_data_specs at h
  rw [List.mem_flatMap] at h
  obtain ⟨p, hp, hr⟩ := h
  rw [List.mem_map] at hr
  obtain ⟨pv, hpv, hr⟩ := hr
  exact ⟨p, hp, by simp [← hr], by simp [← hr], by simpa [← hr] using hpv⟩

/-! ## Claim theorems -/

/-- Claim C1: for every set of vendor tasks the coordinator runs, an exception
raised inside one task's `run` is caught at the task boundary
(`execute_crawler` turns it into a failure result carrying the error message),
every other selected task still reports its own result, and exactly one result
is reported per selected vendor task. -/
theorem run_crawlers_parallel_isolates_failures
    (crawler_classes : List CrawlerTask) (class_names : Option (List String))
    (results : List (String × String))
    (h : run_crawlers_parallel crawler_classes class_names = some results) :
    results.length = (selectedClasses crawler_classes class_names).length ∧
    (∀ c ∈ selectedClasses crawler_classes class_names,
      c.runOutcome = RunOutcome.ok →
        (c.className, "爬虫 " ++ c.className ++ " 运行成功") ∈ results) ∧
    (∀ c ∈ selectedClasses crawler_classes class_names, ∀ e,
      c.runOutcome = RunOutcome.error e →
        (c.className, "运行爬虫 " ++ c.className ++ " 时出错: " ++ e) ∈ results) := by
  have hr : results = (selectedClasses crawler_classes class_names).map
      (fun c => (c.className, execute_crawler c)) := by
    unfold run_crawlers_parallel at h
    by_cases h1 : crawler_classes = []
    · simp [h1] at h
    · rw [if_neg h1] at h
      by_cases h2 : selectedClasses crawler_classes class_names = []
      · simp [h2] at h
      · rw [if_neg h2] at h
        exact (Option.some.injEq _ _ ▸ h).symm
  subst hr
  refine ⟨List.length_map _ _, ?_, ?_⟩
  · intro c hc hok
    refine List.mem_map.mpr ⟨c, hc, ?_⟩
    simp [execute_crawler, hok]
  · intro c hc e herr
    refine List.mem_map.mpr ⟨c, hc, ?_⟩
    simp [execute_crawler, herr]

/-- Witness for C1: three tasks A, B, C where B's run raises "boom"; three
results are reported, A and C successful, B failed with the captured
message. -/
theorem run_crawlers_parallel_isolates_failures_witness :
    ([("A", "爬虫 A 运行成功"), ("B", "运行爬虫 B 时出错: boom"),
        ("C", "爬虫 C 运行成功")] : List (String × String)).length =
      (selectedClasses [⟨"A", RunOutcome.ok⟩, ⟨"B", RunOutcome.error "boom"⟩,
          ⟨"C", RunOutcome.ok⟩] none).length ∧
    (∀ c ∈ selectedClasses [⟨"A", RunOutcome.ok⟩, ⟨"B", RunOutcome.error "boom"⟩,
          ⟨"C", RunOutcome.ok⟩] none,
      c.runOutcome = RunOutcome.ok →
        (c.className, "爬虫 " ++ c.className ++ " 运行成功") ∈
          ([("A", "爬虫 A 运行成功"), ("B", "运行爬虫 B 时出错: boom"),
            ("C", "爬虫 C 运行成功")] : List (String × String))) ∧
    (∀ c ∈ selectedClasses [⟨"A", RunOutcome.ok⟩, ⟨"B", RunOutcome.error "boom"⟩,
          ⟨"C", RunOutcome.ok⟩] none, ∀ e,
      c.runOutcome = RunOutcome.error e →
        (c.className, "运行爬虫 " ++ c.className ++ " 时出错: " ++ e) ∈
          ([("A", "爬虫 A 运行成功"), ("B", "运行爬虫 B 时出错: boom"),
            ("C", "爬虫 C 运行成功")] : List (String × String))) :=
  run_crawlers_parallel_isolates_failures
    [⟨"A", RunOutcome.ok⟩, ⟨"B", RunOutcome.error "boom"⟩, ⟨"C", RunOutcome.ok⟩]
    none
    [("A", "爬虫 A 运行成功"), ("B", "运行爬虫 B 时出错: boom"),
      ("C", "爬虫 C 运行成功")]
    (by decide)

/-- Counterexample for C2: a run whose single discovered link fails extraction
ends with non-empty `skipped_urls`, yet the skipped-URLs side file is NOT
written, because the write sits inside the `if self.all_products:` branch
(src/base_crawler.py lines 146-154) and nothing was collected. -/
theorem run_skipped_file_counterexample :
    (BaseCrawler.run ["https://start"]
        ⟨fun _ => ["https://start/p1"], fun _ => none⟩).skipped_urls ≠ [] ∧
    (BaseCrawler.run ["https://start"]
        ⟨fun _ => ["https://start/p1"], fun _ => none⟩).skipped_file_written = false := by
  constructor
  · simp [BaseCrawler.run]
  · rfl

/-- Claim C2 (amended): in `BaseCrawler.run`, every discovered link on which
`extract_product_details` returns absent is appended to `skipped_urls` and
contributes nothing to `all_products`, the run processes every link (no
abort), and the `{vendor}_skipped_urls.txt` side file is written iff
`skipped_urls` is non-empty AND at least one product was collected — a run
that collects nothing writes no side file even when links were skipped. -/
theorem run_absent_links_skipped (start_urls : List String) (o : CrawlOracle) :
    (∀ l ∈ start_urls.flatMap o.process_category_page,
        o.extract_product_details l = none →
          l ∈ (BaseCrawler.run start_urls o).skipped_urls) ∧
    (∀ p ∈ (BaseCrawler.run start_urls o).all_products,
        ∃ l ∈ start_urls.flatMap o.process_category_page,
          o.extract_product_details l = some p) ∧
    ((BaseCrawler.run start_urls o).all_products.length +
        (BaseCrawler.run start_urls o).skipped_urls.length =
      (start_urls.flatMap o.process_category_page).length) ∧
    ((BaseCrawler.run start_urls o).skipped_file_written = true ↔
      (BaseCrawler.run start_urls o).all_products ≠ [] ∧
        (BaseCrawler.run start_urls o).skipped_urls ≠ []) := by
  refine ⟨?_, ?_, ?_, ?_⟩
  · intro l hl habsent
    simp only [BaseCrawler.run, List.mem_filter]
    exact ⟨hl, by simp [habsent]⟩
  · intro p hp
    simp only [BaseCrawler.run] at hp
    exact List.mem_filterMap.mp hp
  · exact length_filterMap_add_length_filter_isNone o.extract_product_details _
  · simp [BaseCrawler.run, List.isEmpty_iff]

/-- Witness for C2 (amended): a run with two links, one extracted and one
absent, skips the absent one, keeps the extracted one, and writes the side
file. -/
theorem run_absent_links_skipped_witness :
    (∀ l ∈ (["https://s"] : List String).flatMap
        (fun _ => ["https://s/ok", "https://s/bad"]),
        (if l = "https://s/ok"
            then some (Product.mk "P1" "Cam" [Param.mk "n" "v"]) else none) = none →
          l ∈ (BaseCrawler.run ["https://s"]
            ⟨fun _ => ["https://s/ok", "https://s/bad"],
             fun l => if l = "https://s/ok"
                then some (Product.mk "P1" "Cam" [Param.mk "n" "v"]) else none⟩).skipped_urls) ∧
    (∀ p ∈ (BaseCrawler.run ["https://s"]
        ⟨fun _ => ["https://s/ok", "https://s/bad"],
         fun l => if l = "https://s/ok"
            then some (Product.mk "P1" "Cam" [Param.mk "n" "v"]) else none⟩).all_products,
        ∃ l ∈ (["https://s"] : List String).flatMap
            (fun _ => ["https://s/ok", "https://s/bad"]),
          (if l = "https://s/ok"
              then some (Product.mk "P1" "Cam" [Param.mk "n" "v"]) else none) = some p) ∧
    ((BaseCrawler.run ["https://s"]
        ⟨fun _ => ["https://s/ok", "https://s/bad"],
         fun l => if l = "https://s/ok"
            then some (Product.mk "P1" "Cam" [Param.mk "n" "v"]) else none⟩).all_products.length +
      (BaseCrawler.run ["https://s"]
        ⟨fun _ => ["https://s/ok", "https://s/bad"],
         fun l => if l = "https://s/ok"
            then some (Product.mk "P1" "Cam" [Param.mk "n" "v"]) else none⟩).skipped_urls.length =
      ((["https://s"] : List String).flatMap
          (fun _ => ["https://s/ok", "https://s/bad"])).length) ∧
    ((BaseCrawler.run ["https://s"]
        ⟨fun _ => ["https://s/ok", "https://s/bad"],
         fun l => if l = "https://s/ok"
            then some (Product.mk "P1" "Cam" [Param.mk "n" "v"]) else none⟩).skipped_file_written = true ↔
      (BaseCrawler.run ["https://s"]
        ⟨fun _ => ["https://s/ok", "https://s/bad"],
         fun l => if l = "https://s/ok"
            then some (Product.mk "P1" "Cam" [Param.mk "n" "v"]) else none⟩).all_products ≠ [] ∧
      (BaseCrawler.run ["https://s"]
        ⟨fun _ => ["https://s/ok", "https://s/bad"],
         fun l => if l = "https://s/ok"
            then some (Product.mk "P1" "Cam" [Param.mk "n" "v"]) else none⟩).skipped_urls ≠ []) :=
  run_absent_links_skipped ["https://s"]
    ⟨fun _ => ["https://s/ok", "https://s/bad"],
     fun l => if l = "https://s/ok"
        then some (Product.mk "P1" "Cam" [Param.mk "n" "v"]) else none⟩

/-- Claim C8: the crawlers/base_crawler.py `run` has no try/finally, so an
exception raised during link discovery propagates out of `run` before
`driver.quit()` is reached and the browser session is left open — contradicting
the release-on-all-exit-paths claim; the src/base_crawler.py variant, whose
`run` quits the driver in a `finally` block, does release it on the same
failing input. -/
theorem crawlers_run_leaves_driver_open :
    CrawlersBaseCrawler.run_exit ["https://www.everfocus.com/tw/product/catalog.php"]
        ⟨fun _ => Except.error "network error", fun _ => Except.ok none,
          Except.ok ()⟩ =
      { driver_quit := false, propagated := some "network error" } ∧
    BaseCrawler.run_exit ["https://www.everfocus.com/tw/product/catalog.php"]
        ⟨fun _ => Except.error "network error", fun _ => Except.ok none,
          Except.ok ()⟩ =
      { driver_quit := true, propagated := none } := by
  constructor <;> rfl

theorem vivotek_extract_params {pg : VivotekPage} {r : Product}
    (h : VivotekCrawler.extract_product_details pg = some r) :
    r.params = vivotekParams pg.groups := by
  unfold VivotekCrawler.extract_product_details at h
  dsimp only at h
  repeat' split at h
  all_goals try exact Option.noConfusion h
  obtain rfl := Option.some.inj h
  rfl

theorem dahua_extract_params {pg : DahuaPage} {r : Product}
    (h : DahuaCrawler.extract_product_details pg = some r) :
    r.params = dahuaParams pg.sections := by
  unfold DahuaCrawler.extract_product_details at h
  dsimp only at h
  repeat' split at h
  all_goals try exact Option.noConfusion h
  obtain rfl := Option.some.inj h
  rfl

theorem everfocus_extract_params {pg : EverfocusPage} {r : Product}
    (h : EverFocusCrawler.extract_product_details pg = some r) :
    r.params = everfocusParams pg.spec_rows := by
  unfold EverFocusCrawler.extract_product_details at h
  dsimp only at h
  repeat' split at h
  all_goals try exact Option.noConfusion h
  all_goals (obtain rfl := Option.some.inj h; rfl)

theorem hisharp_extract_params {pg : HisharpPage} {r : Product}
    (h : HisharpCrawler.extract_product_details pg = some r) :
    r.params = hisharpParams pg.table_rows := by
  unfold HisharpCrawler.extract_product_details at h
  dsimp only at h
  repeat' split at h
  all_goals try exact Option.noConfusion h
  all_goals (obtain rfl := Option.some.inj h; rfl)

theorem mem_vivotekParams {gs : List VivoGroup} {pr : Param}
    (h : pr ∈ vivotekParams gs) : pr.paramName ≠ "" ∧ pr.param ≠ "" := by
  unfold vivotekParams at h
  rw [List.mem_filterMap] at h
  obtain ⟨g, _, hsome⟩ := h
  dsimp only at hsome
  repeat' split at hsome
  all_goals try exact Option.noConfusion hsome
  next hcond =>
    obtain rfl := Option.some.inj hsome
    push_neg at hcond
    exact hcond

theorem mem_dahuaParams {ss : List (List DahuaItem)} {pr : Param}
    (h : pr ∈ dahuaParams ss) : pr.paramName ≠ "" ∧ pr.param ≠ "" := by
  unfold dahuaParams at h
  rw [List.mem_flatMap] at h
  obtain ⟨items, _, h⟩ := h
  rw [List.mem_filterMap] at h
  obtain ⟨item, _, hsome⟩ := h
  dsimp only at hsome
  repeat' split at hsome
  all_goals try exact Option.noConfusion hsome
  next hcond =>
    obtain rfl := Option.some.inj hsome
    push_neg at hcond
    exact hcond

theorem mem_everfocusParams {rs : List (List String)} {pr : Param}
    (h : pr ∈ everfocusParams rs) : pr.paramName ≠ "" ∧ pr.param ≠ "" := by
  unfold everfocusParams at h
  rw [List.mem_filterMap] at h
  obtain ⟨cells, _, hsome⟩ := h
  dsimp only at hsome
  repeat' split at hsome
  all_goals try exact Option.noConfusion hsome
  next hcond =>
    obtain rfl := Option.some.inj hsome
    push_neg at hcond
    exact hcond

theorem mem_hisharpParams {rs : List (List String)} {pr : Param}
    (h : pr ∈ hisharpParams rs) : pr.paramName ≠ "" := by
  unfold hisharpParams at h
  rw [List.mem_filterMap] at h
  obtain ⟨cells, _, hsome⟩ := h
  dsimp only at hsome
  repeat' split at hsome
  all_goals try exact Option.noConfusion hsome
  next hcond =>
    obtain rfl := Option.some.inj hsome
    exact hcond


/-- Counterexample for C3: on an EverFocus product page that loads but whose
required product-id element never appears within the bounded wait,
`extract_product_details` does NOT return absent — it falls back to the
sentinel "未知ID" (src/everfocus_crawler.py lines 55-65) and returns a
record. -/
theorem everfocus_sentinel_counterexample :
    EverFocusCrawler.extract_product_details
        ⟨false, none, some "EF-Camera", [["解析度", "4MP"]]⟩ =
      some ⟨"未知ID", "EF-Camera", [⟨"解析度", "4MP"⟩]⟩ ∧
    EverFocusCrawler.extract_product_details
        ⟨false, none, some "EF-Camera", [["解析度", "4MP"]]⟩ ≠ none := by
  refine ⟨by decide, by decide⟩

/-- Claim C3 (amended): `extract_detail` returns absent when the page fails to
load, and — for the Vivotek and Hisharp extractors — also whenever the required
product_id cannot be located within the single bounded wait; the EverFocus
extractor instead substitutes the sentinel "未知ID" for a missing product_id
and still returns a record (only a page-load failure makes it absent there);
a non-required field (the product name) falling back to its sentinel does not
cause absent. -/
theorem extract_detail_absent_on_missing_required :
    (∀ pg : VivotekPage, pg.load_fails = true ∨ pg.id_text = none →
        VivotekCrawler.extract_product_details pg = none) ∧
    (∀ pg : HisharpPage, pg.load_fails = true ∨ pg.id_text = none →
        HisharpCrawler.extract_product_details pg = none) ∧
    (∀ pg : EverfocusPage, pg.load_fails = true →
        EverFocusCrawler.extract_product_details pg = none) ∧
    (∀ pg : EverfocusPage, pg.load_fails = false → pg.product_id_text = none →
        ∃ r, EverFocusCrawler.extract_product_details pg = some r ∧
          r.product_id = "未知ID") ∧
    (∀ (pg : HisharpPage) (t : String), pg.load_fails = false →
        pg.id_text = some t → ¬ pyStrip t = "" → pg.name_text = none →
        ∃ r, HisharpCrawler.extract_product_details pg = some r ∧
          r.product_name = "未知名称") := by
  refine ⟨?_, ?_, ?_, ?_, ?_⟩
  · intro pg h
    unfold VivotekCrawler.extract_product_details
    rcases h with h | h <;> simp [h]
  · intro pg h
    unfold HisharpCrawler.extract_product_details
    rcases h with h | h <;> simp [h]
  · intro pg h
    unfold EverFocusCrawler.extract_product_details
    simp [h]
  · intro pg h1 h2
    unfold EverFocusCrawler.extract_product_details
    rw [h1, h2]
    exact ⟨_, rfl, rfl⟩
  · intro pg t h1 h2 h3 h4
    unfold HisharpCrawler.extract_product_details
    rw [h1, h2, h4]
    dsimp only
    rw [if_neg h3]
    exact ⟨_, rfl, rfl⟩

/-- Counterexample for C9: the Hisharp extractor keeps a parameter row whose
second cell strips to the empty string (only `param_name` is checked,
src/crawlers/hisharp_crawler.py lines 144-151), so a produced record can
contain a (name, value) pair with an empty value. -/
theorem hisharp_empty_param_value_counterexample :
    ∃ r, HisharpCrawler.extract_product_details
        ⟨false, some "HS-100", some "名", [["解析度", "  "]]⟩ = some r ∧
      ¬ ∀ pr ∈ r.params, pr.param ≠ "" :=
  ⟨⟨"HS-100", "名", [⟨"解析度", ""⟩]⟩, by decide, by decide⟩

/-- Claim C9 (amended): every (name, value) pair kept by the Vivotek, Dahua
and EverFocus extractors has a non-empty name and a non-empty value; the
Hisharp extractor guarantees only a non-empty name (its kept pairs may carry
an empty value). -/
theorem kept_parameter_pairs_nonempty :
    (∀ (pg : VivotekPage) (r : Product),
        VivotekCrawler.extract_product_details pg = some r →
          ∀ pr ∈ r.params, pr.paramName ≠ "" ∧ pr.param ≠ "") ∧
    (∀ (pg : DahuaPage) (r : Product),
        DahuaCrawler.extract_product_details pg = some r →
          ∀ pr ∈ r.params, pr.paramName ≠ "" ∧ pr.param ≠ "") ∧
    (∀ (pg : EverfocusPage) (r : Product),
        EverFocusCrawler.extract_product_details pg = some r →
          ∀ pr ∈ r.params, pr.paramName ≠ "" ∧ pr.param ≠ "") ∧
    (∀ (pg : HisharpPage) (r : Product),
        HisharpCrawler.extract_product_details pg = some r →
          ∀ pr ∈ r.params, pr.paramName ≠ "") := by
  refine ⟨?_, ?_, ?_, ?_⟩
  · intro pg r h pr hpr
    rw [vivotek_extract_params h] at hpr
    exact mem_vivotekParams hpr
  · intro pg r h pr hpr
    rw [dahua_extract_params h] at hpr
    exact mem_dahuaParams hpr
  · intro pg r h pr hpr
    rw [everfocus_extract_params h] at hpr
    exact mem_everfocusParams hpr
  · intro pg r h pr hpr
    rw [hisharp_extract_params h] at hpr
    exact mem_hisharpParams hpr

/-- Counterexample for C7: on a Dahua category URL whose pagination parses to
3 total pages, `process_category_page` performs 4 page fetches, not 3 — the
first page is fetched once by `get_selector(url)` (line 202) and a second time
inside `get_links_from_page(url)` (line 208) before pages 2 and 3 are
fetched. -/
theorem dahua_pagination_counterexample :
    pyInt? "3" = some 3 ∧
    (DahuaCrawler.process_category_page
        ⟨fun _ => true, fun u => [u ++ "#p"], fun _ => true,
          fun _ => ["1", "2", "3", "下一頁"]⟩
        "https://www.dahuatech.com/product/lists/14").2 =
      ["https://www.dahuatech.com/product/lists/14",
       "https://www.dahuatech.com/product/lists/14",
       "https://www.dahuatech.com/product/lists/14/2.html",
       "https://www.dahuatech.com/product/lists/14/3.html"] ∧
    (DahuaCrawler.process_category_page
        ⟨fun _ => true, fun u => [u ++ "#p"], fun _ => true,
          fun _ => ["1", "2", "3", "下一頁"]⟩
        "https://www.dahuatech.com/product/lists/14").2.length ≠ 3 := by
  refine ⟨by decide, by decide, by decide⟩

/-- Claim C7 (amended): the total page count is parsed once from the
pagination markup of the first category page (the second-to-last anchor), and
with a parsed total of 3 the crawler visits exactly pages 2 and 3 after page 1,
constructing each subsequent page URL by the pattern `{url}/{page}.html`; the
category however costs 4 page fetches, not 3, because page 1 is fetched twice —
once to parse the pagination and once to collect its links. -/
theorem dahua_pagination_visits_pages_two_and_three (site : DahuaSite) (url : String)
    (h1 : site.fetch_ok url = true) (h2 : site.has_pagination url = true)
    (h3 : ¬ (site.page_anchor_texts url).length < 2)
    (h4 : pyInt? ((site.page_anchor_texts url).getD
        ((site.page_anchor_texts url).length - 2) "") = some 3) :
    (DahuaCrawler.process_category_page site url).2 =
      [url, url, dahua_page_url url 2, dahua_page_url url 3] ∧
    (DahuaCrawler.process_category_page site url).2.length = 4 ∧
    (DahuaCrawler.process_category_page site url).1 =
      DahuaCrawler.get_links_from_page site url ++
        (DahuaCrawler.get_links_from_page site (dahua_page_url url 2) ++
          (DahuaCrawler.get_links_from_page site (dahua_page_url url 3) ++ [])) := by
  have hpages : List.range' 2 (3 + 1 - 2) = [2, 3] := rfl
  have h4' : pyInt? (((site.page_anchor_texts url)[(site.page_anchor_texts
      url).length - 2]?).getD "") = some 3 := by
    simpa [List.getD] using h4
  unfold DahuaCrawler.process_category_page
  dsimp only
  simp [h1, h2, h3, h4', hpages]

/-- Witness for C7 (amended): a concrete category page whose pagination
anchors are 1, 2, 3, next with second-to-last anchor "3". -/
theorem dahua_pagination_visits_pages_two_and_three_witness :
    (DahuaCrawler.process_category_page
        ⟨fun _ => true, fun u => [u ++ "#p"], fun _ => true,
          fun _ => ["1", "2", "3", "下一頁"]⟩ "https://cat").2 =
      ["https://cat", "https://cat", dahua_page_url "https://cat" 2,
        dahua_page_url "https://cat" 3] ∧
    (DahuaCrawler.process_category_page
        ⟨fun _ => true, fun u => [u ++ "#p"], fun _ => true,
          fun _ => ["1", "2", "3", "下一頁"]⟩ "https://cat").2.length = 4 ∧
    (DahuaCrawler.process_category_page
        ⟨fun _ => true, fun u => [u ++ "#p"], fun _ => true,
          fun _ => ["1", "2", "3", "下一頁"]⟩ "https://cat").1 =
      DahuaCrawler.get_links_from_page
          ⟨fun _ => true, fun u => [u ++ "#p"], fun _ => true,
            fun _ => ["1", "2", "3", "下一頁"]⟩ "https://cat" ++
        (DahuaCrawler.get_links_from_page
            ⟨fun _ => true, fun u => [u ++ "#p"], fun _ => true,
              fun _ => ["1", "2", "3", "下一頁"]⟩
            (dahua_page_url "https://cat" 2) ++
          (DahuaCrawler.get_links_from_page
              ⟨fun _ => true, fun u => [u ++ "#p"], fun _ => true,
                fun _ => ["1", "2", "3", "下一頁"]⟩
              (dahua_page_url "https://cat" 3) ++ [])) :=
  dahua_pagination_visits_pages_two_and_three
    ⟨fun _ => true, fun u => [u ++ "#p"], fun _ => true,
      fun _ => ["1", "2", "3", "下一頁"]⟩ "https://cat"
    (by decide) (by decide) (by decide) (by decide)

theorem filter_product_id_ne_nil {specs_df : List SpecRow} {pid : String}
    (h : pid ∈ specs_df.map (·.product_id)) :
    specs_df.filter (fun r => r.product_id = pid) ≠ [] := by
  obtain ⟨r, hr, hpid⟩ := List.mem_map.mp h
  intro hnil
  have hmem : r ∈ specs_df.filter (fun r => r.product_id = pid) :=
    List.mem_filter.mpr ⟨hr, by simp [hpid]⟩
  rw [hnil] at hmem
  exact List.not_mem_nil r hmem

theorem create_json_file_map_product_id (specs_df : List SpecRow) :
    (create_json_file specs_df).map (·.product_id) =
      (uniqueFirst (specs_df.map (·.product_id))).insertionSort (· ≤ ·) := by
  unfold create_json_file
  rw [List.map_map]
  exact List.map_id _

/-- Claim C10: the record-oriented JSON export emits exactly one object per
distinct product_id, ordered by ascending product_id (groupby sorts its keys,
not first-appearance order); rows of records sharing a product_id are merged
into that id's single object, in table order, and the object's product_name is
taken from the group's first flattened row. -/
theorem json_export_sorted_one_object_per_id (specs_df : List SpecRow) :
    ((create_json_file specs_df).map (·.product_id)).Sorted (· < ·) ∧
    ((create_json_file specs_df).map (·.product_id)).Nodup ∧
    (∀ pid : String,
      (∃ obj ∈ create_json_file specs_df, obj.product_id = pid) ↔
        ∃ r ∈ specs_df, r.product_id = pid) ∧
    (∀ obj ∈ create_json_file specs_df,
      obj.params = (specs_df.filter
          (fun r => r.product_id = obj.product_id)).map
          (fun r => { paramName := r.param_name, param := r.param_value }) ∧
      ∃ r0, (specs_df.filter (fun r => r.product_id = obj.product_id)).head? =
          some r0 ∧ obj.product_name = r0.product_name) := by
  have hnodup : ((uniqueFirst (specs_df.map
      (·.product_id))).insertionSort (· ≤ ·)).Nodup :=
    ((List.perm_insertionSort _ _).nodup_iff).mpr (uniqueFirst_nodup _)
  have hsorted : ((uniqueFirst (specs_df.map
      (·.product_id))).insertionSort (· ≤ ·)).Sorted (· ≤ ·) :=
    List.sorted_insertionSort _ _
  refine ⟨?_, ?_, ?_, ?_⟩
  · rw [create_json_file_map_product_id]
    exact hsorted.lt_of_le hnodup
  · rw [create_json_file_map_product_id]
    exact hnodup
  · intro pid
    constructor
    · rintro ⟨obj, hobj, rfl⟩
      unfold create_json_file at hobj
      obtain ⟨pid', hpid', hf⟩ := List.mem_map.mp hobj
      rw [List.mem_insertionSort, mem_uniqueFirst] at hpid'
      obtain ⟨r, hr, hrid⟩ := List.mem_map.mp hpid'
      exact ⟨r, hr, by rw [hrid, ← hf]⟩
    · rintro ⟨r, hr, rfl⟩
      have hpid : r.product_id ∈ specs_df.map (·.product_id) :=
        List.mem_map.mpr ⟨r, hr, rfl⟩
      have hkeys : r.product_id ∈ (uniqueFirst (specs_df.map
          (·.product_id))).insertionSort (· ≤ ·) := by
        rw [List.mem_insertionSort, mem_uniqueFirst]; exact hpid
      refine ⟨_, List.mem_map.mpr ⟨r.product_id, hkeys, rfl⟩, rfl⟩
  · intro obj hobj
    unfold create_json_file at hobj
    obtain ⟨pid, hpid, hf⟩ := List.mem_map.mp hobj
    have hpid' : pid ∈ specs_df.map (·.product_id) := by
      rw [List.mem_insertionSort, mem_uniqueFirst] at hpid
      exact hpid
    have hne := filter_product_id_ne_nil hpid'
    have hid : obj.product_id = pid := by rw [← hf]
    subst hf
    constructor
    · simp [hid]
    · rw [hid]
      cases hflt : specs_df.filter (fun r => r.product_id = pid) with
      | nil => exact absurd hflt hne
      | cons r0 rest =>
        refine ⟨r0, rfl, ?_⟩
        simp [hflt]

theorem filter_prepare_data_specs {products : List SrcProduct}
    (hids : (products.map (·.id)).Nodup) {p : SrcProduct} (hp : p ∈ products) :
    (prepare_data_specs products).filter (fun r => r.product_id = p.id) =
      p.specifications.map (fun pv =>
        { product_id := p.id, product_name := p.name,
          param_name := pv.1, param_value := pv.2 }) := by
  induction products with
  | nil => cases hp
  | cons q qs ih =>
    have hq : q.id ∉ qs.map (·.id) := (List.nodup_cons.mp hids).1
    have hqs : (qs.map (·.id)).Nodup := (List.nodup_cons.mp hids).2
    have hsplit : prepare_data_specs (q :: qs) =
        q.specifications.map (fun pv =>
          { product_id := q.id, product_name := q.name,
            param_name := pv.1, param_value := pv.2 }) ++
          prepare_data_specs qs := by
      unfold prepare_data_specs
      rw [List.flatMap_cons]
    rw [hsplit, List.filter_append]
    rcases List.mem_cons.mp hp with hpq | hpqs
    · rw [hpq]
      have h1 : (q.specifications.map (fun pv =>
          ({ product_id := q.id, product_name := q.name,
             param_name := pv.1, param_value := pv.2 } : SpecRow))).filter
            (fun r => r.product_id = q.id) =
          q.specifications.map (fun pv =>
            { product_id := q.id, product_name := q.name,
              param_name := pv.1, param_value := pv.2 }) := by
        rw [List.filter_eq_self]
        intro r hr
        obtain ⟨pv, _, rfl⟩ := List.mem_map.mp hr
        simp
      have h2 : (prepare_data_specs qs).filter
          (fun r => r.product_id = q.id) = [] := by
        rw [List.filter_eq_nil_iff]
        intro r hr
        obtain ⟨p', hp', hid, _, _⟩ := mem_prepare_data_specs hr
        simp only [decide_eq_true_eq]
        intro hcontra
        exact hq (List.mem_map.mpr ⟨p', hp', by rw [← hid, hcontra]⟩)
      rw [h1, h2, List.append_nil]
    · have hne : q.id ≠ p.id := by
        intro hcontra
        exact hq (List.mem_map.mpr ⟨p, hpqs, hcontra.symm⟩)
      have h1 : (q.specifications.map (fun pv =>
          ({ product_id := q.id, product_name := q.name,
             param_name := pv.1, param_value := pv.2 } : SpecRow))).filter
            (fun r => r.product_id = p.id) = [] := by
        rw [List.filter_eq_nil_iff]
        intro r hr
        obtain ⟨pv, _, rfl⟩ := List.mem_map.mp hr
        simp [hne]
      rw [h1, List.nil_append]
      exact ih hqs hpqs

/-- Claim C4: flattening a collected list to the ExportTable
(`prepare_data`) and regrouping to record-oriented form (`create_json_file`)
reproduces the (product_id, product_name, ordered parameters) triple of every
record with at least one parameter, while a record with zero parameters is
lost by the round trip (no exported object carries its id).  The records of
one persisted VendorRun carry pairwise-distinct product_ids (the spec's §3
invariant), taken as hypothesis. -/
theorem flatten_record_roundtrip (products : List SrcProduct)
    (hids : (products.map (·.id)).Nodup) :
    (∀ p ∈ products, p.specifications ≠ [] →
      ∃ obj ∈ create_json_file (prepare_data_specs products),
        obj.product_id = p.id ∧ obj.product_name = p.name ∧
          obj.params = p.specifications.map
            (fun pv => { paramName := pv.1, param := pv.2 })) ∧
    (∀ p ∈ products, p.specifications = [] →
      ∀ obj ∈ create_json_file (prepare_data_specs products),
        obj.product_id ≠ p.id) := by
  constructor
  · intro p hp hspec
    obtain ⟨pv0, rest, hspecs⟩ : ∃ pv0 rest, p.specifications = pv0 :: rest := by
      cases h : p.specifications with
      | nil => exact absurd h hspec
      | cons a l => exact ⟨a, l, rfl⟩
    have hrow : SpecRow.mk p.id p.name pv0.1 pv0.2 ∈
        prepare_data_specs products := by
      unfold prepare_data_specs
      refine List.mem_flatMap.mpr ⟨p, hp, List.mem_map.mpr ⟨pv0, ?_, rfl⟩⟩
      rw [hspecs]
      exact List.mem_cons_self _ _
    have hpidmem : p.id ∈ (prepare_data_specs products).map (·.product_id) :=
      List.mem_map.mpr ⟨_, hrow, rfl⟩
    have hkeys : p.id ∈ (uniqueFirst ((prepare_data_specs products).map
        (·.product_id))).insertionSort (· ≤ ·) := by
      rw [List.mem_insertionSort, mem_uniqueFirst]
      exact hpidmem
    refine ⟨_, List.mem_map.mpr ⟨p.id, hkeys, rfl⟩, rfl, ?_, ?_⟩
    · show ((((prepare_data_specs products).filter
          (fun r => r.product_id = p.id)).head?).map (·.product_name)).getD "" =
        p.name
      rw [filter_prepare_data_specs hids hp, hspecs]
      simp
    · show (((prepare_data_specs products).filter
          (fun r => r.product_id = p.id)).map
            (fun r => Param.mk r.param_name r.param_value)) =
        p.specifications.map (fun pv => Param.mk pv.1 pv.2)
      rw [filter_prepare_data_specs hids hp, List.map_map]
      rfl
  · intro p hp hspec obj hobj hid
    unfold create_json_file at hobj
    obtain ⟨pid, hpid, hf⟩ := List.mem_map.mp hobj
    have hpidval : obj.product_id = pid := by rw [← hf]
    rw [hid] at hpidval
    rw [List.mem_insertionSort, mem_uniqueFirst] at hpid
    obtain ⟨r, hr, hrid⟩ := List.mem_map.mp hpid
    obtain ⟨q, hq, hqid, _, hpair⟩ := mem_prepare_data_specs hr
    have hq_eq : q = p :=
      List.inj_on_of_nodup_map hids hq hp
        (by rw [← hqid, hrid]; exact hpidval.symm)
    rw [hq_eq, hspec] at hpair
    exact List.not_mem_nil _ hpair

/-- Witness for C4: the spec's §8 scenario record X1/Cam1 with two
parameters. -/
theorem flatten_record_roundtrip_witness :
    (∀ p ∈ [SrcProduct.mk "X1" "Cam1" "https://x/1"
        [("Resolution", "4MP"), ("Lens", "2.8mm")]], p.specifications ≠ [] →
      ∃ obj ∈ create_json_file (prepare_data_specs
          [SrcProduct.mk "X1" "Cam1" "https://x/1"
            [("Resolution", "4MP"), ("Lens", "2.8mm")]]),
        obj.product_id = p.id ∧ obj.product_name = p.name ∧
          obj.params = p.specifications.map
            (fun pv => { paramName := pv.1, param := pv.2 })) ∧
    (∀ p ∈ [SrcProduct.mk "X1" "Cam1" "https://x/1"
        [("Resolution", "4MP"), ("Lens", "2.8mm")]], p.specifications = [] →
      ∀ obj ∈ create_json_file (prepare_data_specs
          [SrcProduct.mk "X1" "Cam1" "https://x/1"
            [("Resolution", "4MP"), ("Lens", "2.8mm")]]),
        obj.product_id ≠ p.id) :=
  flatten_record_roundtrip
    [SrcProduct.mk "X1" "Cam1" "https://x/1"
      [("Resolution", "4MP"), ("Lens", "2.8mm")]]
    (by decide)

/-- Claim C5: the pivot export has exactly one row per distinct
(product_id, product_name) pair, one column per distinct param_name; a cell
holds the single matching param_value — the first occurrence in table order
when a param_name repeats within a product — and a param_name with no row for
some product yields a missing (empty) cell rather than an error. -/
theorem pivot_one_row_per_product_first_wins (specs_df : List SpecRow) :
    ((create_pivot_csv specs_df).map (·.1)).Nodup ∧
    (∀ k : String × String,
      (∃ row ∈ create_pivot_csv specs_df, row.1 = k) ↔
        ∃ r ∈ specs_df, r.product_id = k.1 ∧ r.product_name = k.2) ∧
    (∀ row ∈ create_pivot_csv specs_df,
      row.2.map (·.1) = pivotColumns specs_df ∧
      ∀ cell ∈ row.2,
        (∀ v, cell.2 = some v →
          ∃ i : Fin specs_df.length,
            ((specs_df.get i).product_id = row.1.1 ∧
              (specs_df.get i).product_name = row.1.2 ∧
              (specs_df.get i).param_name = cell.1) ∧
            (specs_df.get i).param_value = v ∧
            ∀ j : Fin specs_df.length, j.val < i.val →
              ¬((specs_df.get j).product_id = row.1.1 ∧
                (specs_df.get j).product_name = row.1.2 ∧
                (specs_df.get j).param_name = cell.1)) ∧
        (cell.2 = none ↔
          ∀ r ∈ specs_df, ¬(r.product_id = row.1.1 ∧
            r.product_name = row.1.2 ∧ r.param_name = cell.1))) := by
  refine ⟨?_, ?_, ?_⟩
  · have : (create_pivot_csv specs_df).map (·.1) = pivotIndexKeys specs_df := by
      unfold create_pivot_csv
      rw [List.map_map]
      exact List.map_id _
    rw [this]
    exact ((List.perm_insertionSort _ _).nodup_iff).mpr (uniqueFirst_nodup _)
  · intro k
    constructor
    · rintro ⟨row, hrow, rfl⟩
      unfold create_pivot_csv at hrow
      obtain ⟨k', hk', hf⟩ := List.mem_map.mp hrow
      rw [show row.1 = k' by rw [← hf]]
      unfold pivotIndexKeys at hk'
      rw [List.mem_insertionSort, mem_uniqueFirst] at hk'
      obtain ⟨r, hr, hrk⟩ := List.mem_map.mp hk'
      exact ⟨r, hr, by rw [← hrk], by rw [← hrk]⟩
    · rintro ⟨r, hr, h1, h2⟩
      have hk : k ∈ pivotIndexKeys specs_df := by
        unfold pivotIndexKeys
        rw [List.mem_insertionSort, mem_uniqueFirst]
        exact List.mem_map.mpr ⟨r, hr, by rw [h1, h2]⟩
      exact ⟨_, List.mem_map.mpr ⟨k, hk, rfl⟩, rfl⟩
  · intro row hrow
    unfold create_pivot_csv at hrow
    obtain ⟨k, hk, hf⟩ := List.mem_map.mp hrow
    subst hf
    constructor
    · rw [List.map_map]
      exact List.map_id _
    · intro cell hcell
      obtain ⟨c, hc, hfc⟩ := List.mem_map.mp hcell
      subst hfc
      constructor
      · intro v hv
        simp only [pivotCell, Option.map_eq_some'] at hv
        obtain ⟨r', hr', hval⟩ := hv
        obtain ⟨i, hget, hpred, hfirst⟩ := filter_head?_first _ _ _ hr'
        refine ⟨i, ?_, ?_, ?_⟩
        · rw [hget]
          exact of_decide_eq_true hpred
        · rw [hget]
          exact hval
        · intro j hj
          have hfalse := hfirst j hj
          rw [decide_eq_false_iff_not] at hfalse
          exact hfalse
      · simp only [pivotCell, Option.map_eq_none']
        rw [List.head?_eq_none_iff, List.filter_eq_nil_iff]
        simp

theorem map_const_replicate {α β : Type} (b : β) (l : List α) :
    l.map (fun _ => b) = List.replicate l.length b := by
  induction l with
  | nil => rfl
  | cons x xs ih => simp [ih, List.replicate_succ]

/-- Claim C6: in the merged-cell spreadsheet export the data rows are grouped
contiguously by product_id in first-appearance order (the rendered id column
is a concatenation of constant blocks, one block per distinct id, in
first-appearance order), each id owns exactly one group whose id/name cells
span its row range, and any two rendered rows with the same product_id carry
an identical product_name. -/
theorem excel_grouped_contiguous_consistent (specs_df : List SpecRow)
    (product_name_map : List (String × String)) :
    ((create_excel_file specs_df product_name_map).map (·.product_id) =
      uniqueFirst (specs_df.map (·.product_id))) ∧
    ((create_excel_file specs_df product_name_map).map (·.product_id)).Nodup ∧
    ((excelRenderedRows (create_excel_file specs_df product_name_map)).map
        (·.product_id) =
      (uniqueFirst (specs_df.map (·.product_id))).flatMap (fun pid =>
        List.replicate ((specs_df.filter
          (fun r => r.product_id = pid)).length) pid)) ∧
    (∀ r1 ∈ excelRenderedRows (create_excel_file specs_df product_name_map),
      ∀ r2 ∈ excelRenderedRows (create_excel_file specs_df product_name_map),
        r1.product_id = r2.product_id → r1.product_name = r2.product_name) := by
  have hmapid : (create_excel_file specs_df product_name_map).map
      (·.product_id) = uniqueFirst (specs_df.map (·.product_id)) := by
    unfold create_excel_file
    rw [List.map_map]
    exact List.map_id _
  refine ⟨hmapid, ?_, ?_, ?_⟩
  · rw [hmapid]
    exact uniqueFirst_nodup _
  · unfold excelRenderedRows create_excel_file
    induction uniqueFirst (specs_df.map (·.product_id)) with
    | nil => rfl
    | cons pid ks ih =>
      rw [List.map_cons, List.flatMap_cons, List.flatMap_cons,
        List.map_append, ih]
      congr 1
      rw [List.map_map, List.map_map]
      exact map_const_replicate _ _
  · intro r1 hr1 r2 hr2 hid
    unfold excelRenderedRows create_excel_file at hr1 hr2
    obtain ⟨g1, hg1, hr1'⟩ := List.mem_flatMap.mp hr1
    obtain ⟨g2, hg2, hr2'⟩ := List.mem_flatMap.mp hr2
    obtain ⟨pid1, _, hf1⟩ := List.mem_map.mp hg1
    obtain ⟨pid2, _, hf2⟩ := List.mem_map.mp hg2
    obtain ⟨pv1, _, hrow1⟩ := List.mem_map.mp hr1'
    obtain ⟨pv2, _, hrow2⟩ := List.mem_map.mp hr2'
    have h1id : r1.product_id = g1.product_id := by rw [← hrow1]
    have h1nm : r1.product_name = g1.product_name := by rw [← hrow1]
    have h2id : r2.product_id = g2.product_id := by rw [← hrow2]
    have h2nm : r2.product_name = g2.product_name := by rw [← hrow2]
    have hg1id : g1.product_id = pid1 := by rw [← hf1]
    have hg2id : g2.product_id = pid2 := by rw [← hf2]
    have hg1nm : g1.product_name = (dictGet product_name_map pid1).getD "未知产品" := by
      rw [← hf1]
    have hg2nm : g2.product_name = (dictGet product_name_map pid2).getD "未知产品" := by
      rw [← hf2]
    have hpid : pid1 = pid2 := by
      rw [← hg1id, ← hg2id, ← h1id, ← h2id]
      exact hid
    rw [h1nm, h2nm, hg1nm, hg2nm, hpid]
